import Mathlib

/-!
Shallow embedding of the Ocassia marketplace backend (Node/Express + Mongoose),
covering the booking lifecycle, event-center availability, CAC gating, reviews,
dashboards and escrow bookkeeping that the specification describes.

Sources embedded here:
  * `src/unnamed/part_003`  — `constants.js` (`BOOKING_STATUS`, `USER_ROLES`, `STATUS_CODES`)
  * `src/unnamed/part_005`  — `routes/bookings.js` (create / status update / delete)
  * `src/server/routes/centers.js`  — availability check, `POST /api/centers`
  * `src/server/routes/reviews.js`  — `POST /api/reviews`
  * `src/unnamed/part_011`  — `routes/dashboard.js` (host dashboard aggregates)
  * `src/server/models/Booking.js`, `src/server/models/EventCenter.js`,
    `src/server/models/User.js` — schema constraints and pre-save hooks.

JavaScript values are modelled as follows: Mongo ObjectIds become `Nat`,
`Date` values become `Int` (milliseconds since the epoch), numbers become
`Int`, optional/undefined fields become `Option`, and a route handler becomes
a function into `Except HttpError α` (an `Except.error` is an
`errorResponse(res, code, msg)`; an `Except.ok` is a `successResponse`).
-/

namespace Ocassia

/- Status-code constants from `constants.js` (`STATUS_CODES`). -/
namespace STATUS_CODES

def OK : Nat := 200

def CREATED : Nat := 201

def BAD_REQUEST : Nat := 400

def UNAUTHORIZED : Nat := 401

def FORBIDDEN : Nat := 403

def NOT_FOUND : Nat := 404

def CONFLICT : Nat := 409

def INTERNAL_ERROR : Nat := 500

end STATUS_CODES

/- Booking-status constants from `constants.js` (`BOOKING_STATUS`). -/
namespace BOOKING_STATUS

def PENDING : String := "pending"

def CONFIRMED : String := "confirmed"

def CANCELLED : String := "cancelled"

def COMPLETED : String := "completed"

/-- `Object.values(BOOKING_STATUS)` as used by the status-update route. -/
def values : List String := [PENDING, CONFIRMED, CANCELLED, COMPLETED]

end BOOKING_STATUS

/- User-role constants from `constants.js` (`USER_ROLES`). -/
namespace USER_ROLES

def ADMIN : String := "admin"

def HOST : String := "host"

def PROVIDER : String := "provider"

def CENTER : String := "center"

end USER_ROLES

/-- An `errorResponse(res, statusCode, message)` from `utils/helpers.js`. -/
structure HttpError where
  code : Nat
  msg : String
  deriving Repr, DecidableEq

/-- One entry of `availability.bookedDates` / `availability.blockedDates` in the
`EventCenter` schema: a `startDate`/`endDate` pair, with an optional back
reference to the `Booking` that created it (`blockedDates` entries carry no
booking reference). -/
structure DateRange where
  startDate : Int
  endDate : Int
  booking : Option Nat := none
  deriving Repr, DecidableEq

/-- The `availability` subdocument of the `EventCenter` schema. -/
structure Availability where
  bookedDates : List DateRange := []
  blockedDates : List DateRange := []
  deriving Repr, DecidableEq

/-- The `capacity` subdocument of the `EventCenter` schema. -/
structure Capacity where
  minimum : Int
  maximum : Int
  deriving Repr, DecidableEq

/-- The fields of the `EventCenter` model (`src/server/models/EventCenter.js`)
that the booking/availability/listing routes read or write. -/
structure EventCenter where
  id : Nat
  owner : Nat
  isActive : Bool := true
  verificationStatus : String := "pending"
  capacity : Capacity
  availability : Availability := {}
  deriving Repr, DecidableEq

/-- Milliseconds in a day, used to model `Date.prototype.setHours(23,59,59,999)`. -/
def msPerDay : Int := 86400000

/-- The route code builds the end of the event day via
`endDate.setHours(23, 59, 59, 999)`; on a UTC timestamp in milliseconds this
is the last millisecond of the calendar day containing `t`. -/
def endOfDay (t : Int) : Int := t - t % msPerDay + (msPerDay - 1)

/-- The overlap test the routes run per stored range: the JavaScript predicate
`start <= bookingEnd && end >= bookingStart` from
`GET /api/centers/:centerId/availability` and from `POST /api/bookings`. -/
def rangeConflicts (qStart qEnd : Int) (r : DateRange) : Bool :=
  decide (qStart ≤ r.endDate) && decide (qEnd ≥ r.startDate)

/-- `isBooked` in `GET /api/centers/:centerId/availability` (and in the
center-booking branch of `POST /api/bookings`): a linear `Array.prototype.some`
scan over `availability.bookedDates`. -/
def isBooked (c : EventCenter) (qStart qEnd : Int) : Bool :=
  c.availability.bookedDates.any (rangeConflicts qStart qEnd)

/-- `isBlocked` in the same two handlers: the identical scan over
`availability.blockedDates`. -/
def isBlocked (c : EventCenter) (qStart qEnd : Int) : Bool :=
  c.availability.blockedDates.any (rangeConflicts qStart qEnd)

/-- The body of the `successResponse` of
`GET /api/centers/:centerId/availability`. -/
structure AvailabilityReport where
  isAvailable : Bool
  reason : Option String
  deriving Repr, DecidableEq

/-- The availability answer computed by
`GET /api/centers/:centerId/availability` (centers.js, lines 343-364):
`isAvailable: !isBooked && !isBlocked`, with the reason string chosen by the
same conditional as the route. -/
def checkCenterAvailability (c : EventCenter) (qStart qEnd : Int) : AvailabilityReport :=
  let booked := isBooked c qStart qEnd
  let blocked := isBlocked c qStart qEnd
  { isAvailable := !booked && !blocked
  , reason :=
      if booked then some "Already booked"
      else if blocked then some "Blocked by owner"
      else none }

/-- The date-conflict test of the center branch of `POST /api/bookings`
(part_005, lines 150-175): the event day runs from `eventDate` to
`endOfDay eventDate`, and the booking is refused (409) when that range hits a
booked or a blocked range. -/
def centerBookingDateConflict (c : EventCenter) (eventDate : Int) : Bool :=
  isBooked c eventDate (endOfDay eventDate) || isBlocked c eventDate (endOfDay eventDate)

/-- One entry of `statusHistory` in the `Booking` schema. -/
structure StatusHistoryEntry where
  status : String
  changedBy : Nat
  changedAt : Int
  reason : String
  deriving Repr, DecidableEq

/-- The `cancellation` subdocument of the `Booking` schema (the fields the
routes write). -/
structure Cancellation where
  cancelledBy : Nat
  cancelledAt : Int
  reason : String
  deriving Repr, DecidableEq

/-- The `pricing` subdocument of the `Booking` schema. -/
structure Pricing where
  baseAmount : Int
  discount : Int := 0
  totalAmount : Int
  currency : String := "NGN"
  deriving Repr, DecidableEq

/-- The `eventDetails` subdocument of the `Booking` schema (the fields the
routes read). `guestCount` is optional in the schema. -/
structure EventDetails where
  eventDate : Int
  startTime : String
  endTime : String
  guestCount : Option Int := none
  deriving Repr, DecidableEq

/-- The `Booking` model (`src/server/models/Booking.js`): the fields that the
booking, review and dashboard code reads or writes. `bookingNumber` is
`none` until the generating pre-save hook has run. -/
structure Booking where
  id : Nat
  bookingType : String
  bookingNumber : Option String := none
  customer : Nat
  provider : Nat
  eventCenter : Option Nat := none
  eventDetails : EventDetails
  pricing : Pricing
  paymentStatus : String := "pending"
  paymentMethod : String := "escrow"
  depositPaid : Int := 0
  balanceDue : Int := 0
  status : String := BOOKING_STATUS.PENDING
  statusHistory : List StatusHistoryEntry := []
  cancellation : Option Cancellation := none
  reviewed : Bool := false
  review : Option Nat := none
  deriving Repr, DecidableEq

/-- The authenticated requester (`req.user`): id and role, as the `protect`
middleware attaches them. -/
structure Actor where
  id : Nat
  role : String
  deriving Repr, DecidableEq

/-- `allowedTransitions` from `PUT /api/bookings/:bookingId/status`
(part_005, lines 440-461): pending may go to confirmed or cancelled,
confirmed may go to completed or cancelled, and nothing leaves completed or
cancelled. -/
def allowedTransitions (current : String) : List String :=
  if current = BOOKING_STATUS.PENDING then
    [BOOKING_STATUS.CONFIRMED, BOOKING_STATUS.CANCELLED]
  else if current = BOOKING_STATUS.CONFIRMED then
    [BOOKING_STATUS.COMPLETED, BOOKING_STATUS.CANCELLED]
  else
    []

/-- Removal of a cancelled booking's ranges from a center's `bookedDates`:
`bookedDates.filter(d => d.booking.toString() !== booking._id.toString())`,
shared by the status route and the delete route. -/
def removeBookedDatesFor (bookingId : Nat) (ec : EventCenter) : EventCenter :=
  { ec with availability :=
      { ec.availability with bookedDates :=
          ec.availability.bookedDates.filter (fun d => !(d.booking == some bookingId)) } }

/-- The mutation part of `PUT /api/bookings/:bookingId/status` (part_005,
lines 478-533), run once every guard has passed: the status is written, a
history entry is pushed (`statusHistory.push`, modelled as appending on the
right), a confirmed center booking pushes its event-day range onto the
center's `bookedDates`, and a cancellation records the `cancellation`
subdocument and filters the booking's ranges out of `bookedDates`. -/
def applyStatusUpdate (actor : Actor) (b : Booking) (center : Option EventCenter)
    (status : String) (reason : Option String) (now : Int) : Booking × Option EventCenter :=
  let b1 := { b with
    status := status
    statusHistory := b.statusHistory ++
      [⟨status, actor.id, now, reason.getD ("Status changed to " ++ status)⟩] }
  let center1 :=
    if status == BOOKING_STATUS.CONFIRMED && b.bookingType == "center" then
      center.map (fun ec =>
        { ec with availability :=
            { ec.availability with bookedDates :=
                ec.availability.bookedDates ++
                  [⟨b.eventDetails.eventDate, endOfDay b.eventDetails.eventDate,
                    some b.id⟩] } })
    else center
  let b2 :=
    if status == BOOKING_STATUS.CANCELLED then
      { b1 with cancellation := some ⟨actor.id, now, reason.getD "No reason provided"⟩ }
    else b1
  let center2 :=
    if status == BOOKING_STATUS.CANCELLED && b.bookingType == "center" then
      center1.map (removeBookedDatesFor b.id)
    else center1
  (b2, center2)

/-- The `PUT /api/bookings/:bookingId/status` handler (part_005). The booking
and (for center bookings) its event center stand in for the `findById`
look-ups; the handler returns the saved booking together with the possibly
updated center. Guards appear in source order: status present, status in the
enum, requester authorization, the transition table, and the role rules for
confirming/completing; then the status is written, a history entry is pushed,
and the center's `bookedDates` are extended (on confirmation) or filtered
(on cancellation). -/
def updateBookingStatus (actor : Actor) (b : Booking) (center : Option EventCenter)
    (reqStatus : Option String) (reason : Option String) (now : Int) :
    Except HttpError (Booking × Option EventCenter) :=
  match reqStatus with
  | none => .error ⟨STATUS_CODES.BAD_REQUEST, "Status is required"⟩
  | some status =>
    if !(BOOKING_STATUS.values.contains status) then
      .error ⟨STATUS_CODES.BAD_REQUEST, "Invalid status value"⟩
    else
      let isCustomer := b.customer == actor.id
      let isProvider := b.provider == actor.id
      let isAdmin := actor.role == USER_ROLES.ADMIN
      if !isCustomer && !isProvider && !isAdmin then
        .error ⟨STATUS_CODES.FORBIDDEN, "Not authorized to update this booking"⟩
      else if !((allowedTransitions b.status).contains status) then
        .error ⟨STATUS_CODES.BAD_REQUEST,
          "Cannot transition from " ++ b.status ++ " to " ++ status⟩
      else if status == BOOKING_STATUS.CONFIRMED && !isProvider && !isAdmin then
        .error ⟨STATUS_CODES.FORBIDDEN, "Only provider can confirm bookings"⟩
      else if status == BOOKING_STATUS.COMPLETED && !isProvider && !isAdmin then
        .error ⟨STATUS_CODES.FORBIDDEN, "Only provider can mark bookings as completed"⟩
      else
        .ok (applyStatusUpdate actor b center status reason now)

/-- The mutation part of `DELETE /api/bookings/:bookingId` (part_005, lines
596-624), run once its guards have passed: status becomes cancelled, the
`cancellation` subdocument is set, a history entry is pushed, and a center
booking's ranges are filtered out of the center's `bookedDates`. -/
def applyDeleteCancellation (actor : Actor) (b : Booking) (center : Option EventCenter)
    (reason : Option String) (now : Int) : Booking × Option EventCenter :=
  let b1 := { b with
    status := BOOKING_STATUS.CANCELLED
    cancellation := some ⟨actor.id, now, reason.getD "No reason provided"⟩
    statusHistory := b.statusHistory ++
      [⟨BOOKING_STATUS.CANCELLED, actor.id, now, reason.getD "Booking cancelled"⟩] }
  let center1 :=
    if b.bookingType == "center" then center.map (removeBookedDatesFor b.id)
    else center
  (b1, center1)

/-- The `DELETE /api/bookings/:bookingId` handler (part_005): cancel a booking.
Guards in source order: requester authorization, not already cancelled, not
completed; then status becomes cancelled, the cancellation subdocument is set,
a history entry is pushed, and a center booking's ranges are filtered out of
the center's `bookedDates`. -/
def deleteBooking (actor : Actor) (b : Booking) (center : Option EventCenter)
    (reason : Option String) (now : Int) :
    Except HttpError (Booking × Option EventCenter) :=
  let isCustomer := b.customer == actor.id
  let isProvider := b.provider == actor.id
  let isAdmin := actor.role == USER_ROLES.ADMIN
  if !isCustomer && !isProvider && !isAdmin then
    .error ⟨STATUS_CODES.FORBIDDEN, "Not authorized to cancel this booking"⟩
  else if b.status == BOOKING_STATUS.CANCELLED then
    .error ⟨STATUS_CODES.BAD_REQUEST, "Booking is already cancelled"⟩
  else if b.status == BOOKING_STATUS.COMPLETED then
    .error ⟨STATUS_CODES.BAD_REQUEST, "Cannot cancel a completed booking"⟩
  else
    .ok (applyDeleteCancellation actor b center reason now)

/-- The validation chain of the center branch of `POST /api/bookings`
(part_005, lines 116-190), after the center has been found: active/verified,
then the date-overlap scan (409 on conflict), then the capacity guard.
The capacity guard is the JavaScript `if (eventDetails.guestCount)` block,
so it runs only when `guestCount` is present and truthy (a guest count of 0
is falsy and skips the guard, exactly as an absent one does). -/
def validateCenterForBooking (c : EventCenter) (d : EventDetails) : Except HttpError Unit :=
  if !c.isActive || !(c.verificationStatus == "verified") then
    .error ⟨STATUS_CODES.BAD_REQUEST, "Event center is not available"⟩
  else if centerBookingDateConflict c d.eventDate then
    .error ⟨STATUS_CODES.CONFLICT, "Event center is not available on the selected date"⟩
  else
    match d.guestCount with
    | none => .ok ()
    | some g =>
      if g == 0 then .ok ()
      else if g < c.capacity.minimum || g > c.capacity.maximum then
        .error ⟨STATUS_CODES.BAD_REQUEST,
          "Guest count must be between the minimum and maximum capacity"⟩
      else .ok ()

/-- The `bookingData` object built by `POST /api/bookings` (part_005, lines
199-225): status starts at pending and `statusHistory` holds the single
creation entry, stamped by the requesting customer. -/
def mkBookingData (id : Nat) (bookingType : String) (customerId providerId : Nat)
    (eventCenterId : Option Nat) (d : EventDetails) (p : Pricing)
    (paymentMethod : String) (now : Int) : Booking :=
  { id := id
    bookingType := bookingType
    customer := customerId
    provider := providerId
    eventCenter := eventCenterId
    eventDetails := d
    pricing := p
    paymentMethod := paymentMethod
    status := BOOKING_STATUS.PENDING
    statusHistory := [⟨BOOKING_STATUS.PENDING, customerId, now, "Booking created"⟩] }

/-- The declared validators of the `Booking` schema on the fields this
development tracks: `bookingNumber` is `required`, the money fields carry
`min: 0` (`baseAmount`, `totalAmount`, `depositPaid`, `balanceDue`),
`status` is constrained to the `BOOKING_STATUS` enum, and `guestCount`, when
present, carries `min: 1`. -/
def bookingValidators (b : Booking) : Bool :=
  b.bookingNumber.isSome &&
  decide (0 ≤ b.pricing.baseAmount) &&
  decide (0 ≤ b.pricing.totalAmount) &&
  decide (0 ≤ b.depositPaid) &&
  decide (0 ≤ b.balanceDue) &&
  BOOKING_STATUS.values.contains b.status &&
  (match b.eventDetails.guestCount with
   | none => true
   | some g => decide (1 ≤ g))

/-- The first user pre-save hook of `Booking.js`: generate a booking number
when none is set. The source builds `PRV`/`CTR` plus a timestamp slice and a
random three-digit suffix; the digits are abstracted to fixed ones here, the
shape and the conditional are the source's. -/
def genBookingNumber (b : Booking) : Booking :=
  match b.bookingNumber with
  | some _ => b
  | none =>
    let num := (if b.bookingType == "provider" then "PRV" else "CTR") ++ "-00000000-000"
    { b with bookingNumber := some num }

/-- The second user pre-save hook of `Booking.js` (lines 200-204):
`this.balanceDue = this.pricing.totalAmount - this.depositPaid`. -/
def computeBalanceDue (b : Booking) : Booking :=
  { b with balanceDue := b.pricing.totalAmount - b.depositPaid }

/-- `document.save()` for the Booking model under Mongoose's documented
middleware order: Mongoose registers validation as a built-in pre-save hook
that is prepended to the hook chain (`lib/plugins/validateBeforeSave.js`
registers it with `unshift`), and its middleware documentation states that
all validate hooks run before any user pre-save hook. So a save first runs
the schema validators on the document as it stands, and only then runs the
two user pre-save hooks of `Booking.js`, whose writes are persisted without
being validated again. -/
def bookingSave (b : Booking) : Except String Booking :=
  if bookingValidators b then .ok (computeBalanceDue (genBookingNumber b))
  else .error "ValidationError"

/-- The `$match` predicate of the total-spent aggregation in
`GET /api/dashboard/host` (part_011, lines 36-53): bookings of this customer
that are completed and whose `paymentStatus` is completed or partial. -/
def hostSpentMatch (userId : Nat) (b : Booking) : Bool :=
  b.customer == userId &&
  b.status == BOOKING_STATUS.COMPLETED &&
  (b.paymentStatus == "completed" || b.paymentStatus == "partial")

/-- `totalSpent` in `GET /api/dashboard/host`: the `$group`/`$sum` of
`pricing.totalAmount` over the matched bookings, with the route's
`spentResult.length > 0 ? ... : 0` fallback (an empty sum is 0). -/
def hostTotalSpent (userId : Nat) (bookings : List Booking) : Int :=
  ((bookings.filter (hostSpentMatch userId)).map (fun b => b.pricing.totalAmount)).sum

/-- The fields of the `Review` model that `POST /api/reviews` writes and that
this development tracks. -/
structure Review where
  id : Nat
  reviewType : String
  reviewer : Nat
  booking : Nat
  overall : Int
  isVerified : Bool
  deriving Repr, DecidableEq

/-- The `POST /api/reviews` handler (`src/server/routes/reviews.js`): guards
in source order — requester must be the booking's customer (403), the booking
must be completed (400), not yet reviewed (409), and a truthy overall rating
must be supplied (400; a 0 rating is falsy in JavaScript). On success the
review is created and the booking is saved with `reviewed = true` and
`review` set to the new review's id. -/
def createReview (requester : Nat) (b : Booking) (ratingsOverall : Option Int)
    (newReviewId : Nat) : Except HttpError (Booking × Review) :=
  if !(b.customer == requester) then
    .error ⟨STATUS_CODES.FORBIDDEN, "You can only review your own bookings"⟩
  else if !(b.status == "completed") then
    .error ⟨STATUS_CODES.BAD_REQUEST, "You can only review completed bookings"⟩
  else if b.reviewed then
    .error ⟨STATUS_CODES.CONFLICT, "You have already reviewed this booking"⟩
  else
    match ratingsOverall with
    | none => .error ⟨STATUS_CODES.BAD_REQUEST, "Overall rating is required"⟩
    | some overall =>
      if overall == 0 then
        .error ⟨STATUS_CODES.BAD_REQUEST, "Overall rating is required"⟩
      else
        .ok ({ b with reviewed := true, review := some newReviewId },
             ⟨newReviewId, b.bookingType, requester, b.id, overall, true⟩)

/-- The `centerProfile` subdocument of the `User` model as the listing route
reads it: `POST /api/centers` consults `user.centerProfile.cacVerified`. -/
structure CenterProfile where
  cacVerified : Bool := false
  deriving Repr, DecidableEq

/-- The fields of the `User` model that the listing route reads. -/
structure User where
  id : Nat
  role : String
  centerProfile : CenterProfile := {}
  deriving Repr, DecidableEq

/-- The request body of `POST /api/centers` (spread into `EventCenter.create`
together with `owner: req.user._id`). -/
structure CenterListingBody where
  isActive : Bool := true
  verificationStatus : String := "pending"
  capacity : Capacity
  availability : Availability := {}
  deriving Repr, DecidableEq

/-- The `POST /api/centers` handler (centers.js, lines 190-224) together with
its `authorize(USER_ROLES.CENTER)` middleware: a requester whose role is not
`center` is refused with 403 by the middleware; a center owner whose
`centerProfile.cacVerified` is not true is refused with 403 before anything
is created; otherwise the event center is created with the requester as
owner. -/
def createCenterListing (user : User) (newCenterId : Nat) (body : CenterListingBody) :
    Except HttpError EventCenter :=
  if !(user.role == USER_ROLES.CENTER) then
    .error ⟨STATUS_CODES.FORBIDDEN,
      "Your role is not authorized. This route requires the center role"⟩
  else if !user.centerProfile.cacVerified then
    .error ⟨STATUS_CODES.FORBIDDEN,
      "Your CAC must be verified before creating a center listing"⟩
  else
    .ok { id := newCenterId
          owner := user.id
          isActive := body.isActive
          verificationStatus := body.verificationStatus
          capacity := body.capacity
          availability := body.availability }

/-- Who holds the paid funds of an escrow booking. -/
inductive FundsHolder where
  | platform
  | provider
  deriving Repr, DecidableEq

/-- Modelled from the spec: the repository declares escrow payment states
(the `PaymentFlow` model in `src/unnamed/part_016`, with statuses such as
`held_in_escrow` and `released` and an `escrowDetails` subdocument) but no
route under `src/` ever moves escrow funds — the booking routes leave
`TODO: Handle refund logic`. Following the spec sentence "Escrow: payment
held by the platform until a booking completes", an escrow booking's paid
funds sit with the platform, and move to the provider exactly when the
booking reaches the completed status. The booking status itself moves by the
code's `allowedTransitions` table. -/
structure EscrowState where
  status : String
  holder : FundsHolder
  deriving Repr, DecidableEq

/-- The escrow flow starts with the booking pending and the payment held by
the platform. -/
def escrowInit : EscrowState :=
  ⟨BOOKING_STATUS.PENDING, FundsHolder.platform⟩

/-- Modelled from the spec: one requested status change of the escrow flow.
A request allowed by the code's transition table moves the booking status and
releases the funds to the provider exactly on completion; a disallowed
request leaves the state unchanged (the route rejects it with 400). -/
def escrowStep (s : EscrowState) (req : String) : EscrowState :=
  if (allowedTransitions s.status).contains req then
    ⟨req, if req == BOOKING_STATUS.COMPLETED then FundsHolder.provider else s.holder⟩
  else s

/-- The escrow flow after a sequence of requested status changes. -/
def escrowRun (reqs : List String) : EscrowState :=
  reqs.foldl escrowStep escrowInit

/-!  Theorems.  -/

/-- A stored range conflicts with a query exactly when the two intervals meet
the route's inequality pair. -/
lemma rangeConflicts_iff {qStart qEnd : Int} {r : DateRange} :
    rangeConflicts qStart qEnd r = true ↔ qStart ≤ r.endDate ∧ qEnd ≥ r.startDate := by
  simp [rangeConflicts]

/-- Unavailability as decided by the scan pair `isBooked`/`isBlocked`. -/
lemma isBooked_or_isBlocked_iff (c : EventCenter) (qStart qEnd : Int) :
    (isBooked c qStart qEnd || isBlocked c qStart qEnd) = true ↔
      ∃ r, (r ∈ c.availability.bookedDates ∨ r ∈ c.availability.blockedDates) ∧
        qStart ≤ r.endDate ∧ qEnd ≥ r.startDate := by
  simp only [isBooked, isBlocked, Bool.or_eq_true, List.any_eq_true, rangeConflicts_iff]
  constructor
  · rintro (⟨r, hr, hc⟩ | ⟨r, hr, hc⟩)
    · exact ⟨r, Or.inl hr, hc⟩
    · exact ⟨r, Or.inr hr, hc⟩
  · rintro ⟨r, hr | hr, hc⟩
    · exact Or.inl ⟨r, hr, hc⟩
    · exact Or.inr ⟨r, hr, hc⟩

/-- C2: availability is decided by a linear scan over the center's stored date
ranges. For every center and query range, `GET /api/centers/:centerId/availability`
reports the center unavailable exactly when some entry of `bookedDates` or
`blockedDates` satisfies `start <= entry.end` and `end >= entry.start`; and the
center-booking branch of `POST /api/bookings` flags a conflict for an event
date exactly when some entry overlaps the range from the event date to the end
of its day. When no entry overlaps, the center is reported available. -/
theorem availability_is_linear_overlap_scan (c : EventCenter) (qStart qEnd : Int)
    (eventDate : Int) :
    ((checkCenterAvailability c qStart qEnd).isAvailable = false ↔
      ∃ r, (r ∈ c.availability.bookedDates ∨ r ∈ c.availability.blockedDates) ∧
        qStart ≤ r.endDate ∧ qEnd ≥ r.startDate) ∧
    (centerBookingDateConflict c eventDate = true ↔
      ∃ r, (r ∈ c.availability.bookedDates ∨ r ∈ c.availability.blockedDates) ∧
        eventDate ≤ r.endDate ∧ endOfDay eventDate ≥ r.startDate) := by
  constructor
  · rw [← isBooked_or_isBlocked_iff c qStart qEnd]
    cases hB : isBooked c qStart qEnd <;> cases hL : isBlocked c qStart qEnd <;>
      simp [checkCenterAvailability, hB, hL]
  · rw [← isBooked_or_isBlocked_iff c eventDate (endOfDay eventDate)]
    simp [centerBookingDateConflict]

/-- C5: the host dashboard's `totalSpent` is the plain sum of
`pricing.totalAmount` over exactly the bookings of that customer that are
completed with a completed or partial payment; with no matching booking the
total is 0. -/
theorem host_total_spent_is_aggregate_sum (userId : Nat) (bookings : List Booking) :
    hostTotalSpent userId bookings =
      (bookings.map (fun b =>
        if b.customer = userId ∧ b.status = "completed" ∧
            (b.paymentStatus = "completed" ∨ b.paymentStatus = "partial") then
          b.pricing.totalAmount
        else 0)).sum ∧
    ((∀ b ∈ bookings, ¬(b.customer = userId ∧ b.status = "completed" ∧
        (b.paymentStatus = "completed" ∨ b.paymentStatus = "partial"))) →
      hostTotalSpent userId bookings = 0) := by
  have key : hostTotalSpent userId bookings =
      (bookings.map (fun b =>
        if b.customer = userId ∧ b.status = "completed" ∧
            (b.paymentStatus = "completed" ∨ b.paymentStatus = "partial") then
          b.pricing.totalAmount
        else 0)).sum := by
    induction bookings with
    | nil => simp [hostTotalSpent]
    | cons b bs ih =>
      simp only [hostTotalSpent, List.filter_cons, List.map_cons, List.sum_cons] at ih ⊢
      by_cases hb : b.customer = userId ∧ b.status = "completed" ∧
          (b.paymentStatus = "completed" ∨ b.paymentStatus = "partial")
      · have hmatch : hostSpentMatch userId b = true := by
          simp only [hostSpentMatch, Bool.and_eq_true, beq_iff_eq, Bool.or_eq_true,
            BOOKING_STATUS.COMPLETED]
          exact ⟨⟨hb.1, hb.2.1⟩, hb.2.2⟩
        simp [hmatch, hb, ih]
      · have hmatch : hostSpentMatch userId b = false := by
          rw [Bool.eq_false_iff]
          intro hm
          simp only [hostSpentMatch, Bool.and_eq_true, beq_iff_eq, Bool.or_eq_true,
            BOOKING_STATUS.COMPLETED] at hm
          exact hb ⟨hm.1.1, hm.1.2, hm.2⟩
        simp [hmatch, hb, ih]
  refine ⟨key, fun hnone => ?_⟩
  rw [key]
  have : ∀ b ∈ bookings, (if b.customer = userId ∧ b.status = "completed" ∧
      (b.paymentStatus = "completed" ∨ b.paymentStatus = "partial") then
        b.pricing.totalAmount else 0) = 0 := by
    intro b hb
    simp [hnone b hb]
  rw [List.map_congr_left this]
  simp

/-- A still-pending booking of customer 1, used as concrete input. -/
def samplePendingBooking : Booking :=
  { id := 41
    bookingType := "center"
    customer := 1
    provider := 2
    eventCenter := some 3
    eventDetails := { eventDate := 0, startTime := "09:00", endTime := "17:00" }
    pricing := { baseAmount := 10, totalAmount := 10 } }

/-- C5 witness: a customer whose only booking is still pending has spent 0. -/
theorem host_total_spent_witness :
    hostTotalSpent 1 [samplePendingBooking] = 0 :=
  (host_total_spent_is_aggregate_sum 1 [samplePendingBooking]).2 (by decide)

/-- C3: business-registration (CAC) verification gates listing creation. For a
requester with the center role, `POST /api/centers` answers 403 and creates
nothing when `centerProfile.cacVerified` is false, and any successful listing
creation implies the flag was true (the created center belongs to the
requester). -/
theorem cac_verification_gates_listing (user : User) (newCenterId : Nat)
    (body : CenterListingBody) (hrole : user.role = USER_ROLES.CENTER) :
    (user.centerProfile.cacVerified = false →
      createCenterListing user newCenterId body =
        .error ⟨STATUS_CODES.FORBIDDEN,
          "Your CAC must be verified before creating a center listing"⟩) ∧
    (∀ ec, createCenterListing user newCenterId body = .ok ec →
      user.centerProfile.cacVerified = true ∧ ec.owner = user.id) := by
  constructor
  · intro hcac
    simp [createCenterListing, hrole, hcac]
  · intro ec h
    simp only [createCenterListing, hrole] at h
    by_cases hcac : user.centerProfile.cacVerified
    · refine ⟨hcac, ?_⟩
      simp only [hcac, beq_self_eq_true, Bool.not_true, Bool.false_eq_true, if_false,
        if_neg] at h
      · cases h
        rfl
    · simp [hcac] at h

/-- C3 witness: a verified center owner's listing goes through; the same owner
unverified is refused with 403. -/
theorem cac_verification_gates_listing_witness :
    ((⟨5, "center", ⟨true⟩⟩ : User).centerProfile.cacVerified = true ∧
      ({ id := 9, owner := 5, isActive := true, verificationStatus := "pending",
         capacity := ⟨10, 100⟩, availability := {} } : EventCenter).owner = 5) ∧
    createCenterListing ⟨5, "center", ⟨false⟩⟩ 9 ⟨true, "pending", ⟨10, 100⟩, {}⟩ =
      .error ⟨STATUS_CODES.FORBIDDEN,
        "Your CAC must be verified before creating a center listing"⟩ := by
  constructor
  · exact (cac_verification_gates_listing ⟨5, "center", ⟨true⟩⟩ 9
      ⟨true, "pending", ⟨10, 100⟩, {}⟩ rfl).2 _ rfl
  · exact (cac_verification_gates_listing ⟨5, "center", ⟨false⟩⟩ 9
      ⟨true, "pending", ⟨10, 100⟩, {}⟩ rfl).1 rfl

/-- An already-numbered booking whose deposit exceeds its total: every stored
field satisfies the schema validators (the stale `balanceDue` of 0 included),
so the save is accepted before the hook recomputes the balance. -/
def overpaidBooking : Booking :=
  { id := 7
    bookingType := "center"
    bookingNumber := some "CTR-12345678-001"
    customer := 1
    provider := 2
    eventCenter := some 3
    eventDetails := { eventDate := 0, startTime := "10:00", endTime := "18:00" }
    pricing := { baseAmount := 50, totalAmount := 50 }
    depositPaid := 100
    balanceDue := 0
    status := "confirmed" }

/-- C4: the failing input for the claim that a booking with
`depositPaid > pricing.totalAmount` cannot be saved. `bookingSave` runs the
schema validators before the user pre-save hooks — Mongoose prepends its
validation hook, so the `min: 0` validator only ever sees the stale
`balanceDue` — and the hook then writes `totalAmount - depositPaid = -50`,
which is persisted. The save succeeds and leaves a negative balance, so the
non-negativity constraint does not prevent it; the first half of the claim
(after a save, `balanceDue = totalAmount - depositPaid`) does hold on the
saved document. -/
theorem overpaid_booking_saves_with_negative_balance :
    bookingSave overpaidBooking = .ok { overpaidBooking with balanceDue := -50 } ∧
    overpaidBooking.pricing.totalAmount < overpaidBooking.depositPaid ∧
    ({ overpaidBooking with balanceDue := -50 } : Booking).balanceDue =
      overpaidBooking.pricing.totalAmount - overpaidBooking.depositPaid ∧
    ({ overpaidBooking with balanceDue := -50 } : Booking).balanceDue < 0 :=
  ⟨rfl, by decide, by decide, by decide⟩

/-- An active, verified event center admitting 10 to 100 guests with a free
calendar. -/
def capacityTestCenter : EventCenter :=
  { id := 1
    owner := 2
    isActive := true
    verificationStatus := "verified"
    capacity := ⟨10, 100⟩
    availability := {} }

/-- The event details of a center-booking request that supplies a guest count
of 0. -/
def zeroGuestDetails : EventDetails :=
  { eventDate := 0, startTime := "10:00", endTime := "12:00", guestCount := some 0 }

/-- C6 counterexample: the capacity guard is `if (eventDetails.guestCount)`,
and the number 0 is falsy in JavaScript, so a request that supplies a guest
count of 0 skips the guard entirely. On a center whose minimum capacity is 10
the claim demands a 400 failure, yet the validation chain accepts the
request. -/
theorem capacity_check_skips_zero_guest_count :
    validateCenterForBooking capacityTestCenter zeroGuestDetails = .ok () ∧
    zeroGuestDetails.guestCount = some 0 ∧
    ¬(capacityTestCenter.capacity.minimum ≤ 0 ∧
      (0 : Int) ≤ capacityTestCenter.capacity.maximum) :=
  ⟨rfl, rfl, by decide⟩

/-- C6 as amended: for a center-booking request that supplies a nonzero guest
count, the capacity guard of `POST /api/bookings` passes exactly when the
count lies between the center's minimum and maximum, and an out-of-range
count is refused with 400; a request whose guest count is absent (or 0,
which is falsy) skips the guard. Stated for a center that passed the earlier
guards (active, verified, no date conflict). -/
theorem capacity_check_bounds_nonzero_guest_count (c : EventCenter) (d : EventDetails)
    (g : Int) (hActive : c.isActive = true) (hVer : c.verificationStatus = "verified")
    (hFree : centerBookingDateConflict c d.eventDate = false)
    (hg : d.guestCount = some g) (hgz : g ≠ 0) :
    (validateCenterForBooking c d = .ok () ↔
      c.capacity.minimum ≤ g ∧ g ≤ c.capacity.maximum) ∧
    ((g < c.capacity.minimum ∨ c.capacity.maximum < g) →
      validateCenterForBooking c d =
        .error ⟨STATUS_CODES.BAD_REQUEST,
          "Guest count must be between the minimum and maximum capacity"⟩) ∧
    (∀ d0 : EventDetails, d0.guestCount = none →
      centerBookingDateConflict c d0.eventDate = false →
      validateCenterForBooking c d0 = .ok ()) := by
  have hbase : ∀ d1 : EventDetails, centerBookingDateConflict c d1.eventDate = false →
      validateCenterForBooking c d1 =
        (match d1.guestCount with
         | none => .ok ()
         | some g1 =>
           if g1 == 0 then .ok ()
           else if g1 < c.capacity.minimum || g1 > c.capacity.maximum then
             .error ⟨STATUS_CODES.BAD_REQUEST,
               "Guest count must be between the minimum and maximum capacity"⟩
           else .ok ()) := by
    intro d1 hfree1
    simp [validateCenterForBooking, hActive, hVer, hfree1]
  refine ⟨?_, ?_, ?_⟩
  · rw [hbase d hFree, hg]
    simp only [beq_iff_eq, hgz, if_false]
    by_cases hin : c.capacity.minimum ≤ g ∧ g ≤ c.capacity.maximum
    · have hcond : ¬((g < c.capacity.minimum || g > c.capacity.maximum) = true) := by
        simp only [Bool.or_eq_true, decide_eq_true_eq]
        omega
      rw [if_neg hcond]
      simp [hin]
    · have hcond : (g < c.capacity.minimum || g > c.capacity.maximum) = true := by
        simp only [Bool.or_eq_true, decide_eq_true_eq]
        rcases not_and_or.mp hin with h1 | h1
        · exact Or.inl (by omega)
        · exact Or.inr (by omega)
      rw [if_pos hcond]
      constructor
      · intro h
        exact Except.noConfusion h
      · intro h
        exact absurd h hin
  · intro hout
    rw [hbase d hFree, hg]
    simp only [beq_iff_eq, hgz, if_false]
    have hcond : (g < c.capacity.minimum || g > c.capacity.maximum) = true := by
      simp only [Bool.or_eq_true, decide_eq_true_eq]
      omega
    rw [if_pos hcond]
  · intro d0 hnone hfree0
    rw [hbase d0 hfree0, hnone]

/-- C6 amended witness: on the test center (10 to 100 guests) a request for 5
guests is refused with 400. -/
theorem capacity_check_bounds_witness :
    validateCenterForBooking capacityTestCenter
      { eventDate := 0, startTime := "10:00", endTime := "12:00", guestCount := some 5 } =
      .error ⟨STATUS_CODES.BAD_REQUEST,
        "Guest count must be between the minimum and maximum capacity"⟩ :=
  (capacity_check_bounds_nonzero_guest_count capacityTestCenter
    { eventDate := 0, startTime := "10:00", endTime := "12:00", guestCount := some 5 }
    5 rfl rfl rfl rfl (by decide)).2.1 (Or.inl (by decide))

/-- The four booking-status transitions the claim lists, worded as the spec
words them. -/
def specAllowedPair (current requested : String) : Prop :=
  (current = "pending" ∧ requested = "confirmed") ∨
  (current = "pending" ∧ requested = "cancelled") ∨
  (current = "confirmed" ∧ requested = "completed") ∨
  (current = "confirmed" ∧ requested = "cancelled")

/-- The code's `allowedTransitions` table admits exactly the spec's four
pairs. -/
lemma allowedTransitions_contains_iff (current requested : String) :
    (allowedTransitions current).contains requested = true ↔
      specAllowedPair current requested := by
  unfold allowedTransitions specAllowedPair
  simp only [BOOKING_STATUS.PENDING, BOOKING_STATUS.CONFIRMED, BOOKING_STATUS.CANCELLED,
    BOOKING_STATUS.COMPLETED]
  split
  · rename_i h
    rw [List.elem_iff]
    simp [h]
  · split
    · rename_i h1 h2
      rw [List.elem_iff]
      simp [h1, h2]
    · rename_i h1 h2
      rw [List.elem_iff]
      simp [h1, h2]

/-- After the mutation of a successful status update the booking carries the
requested status. -/
lemma applyStatusUpdate_fst_status (actor : Actor) (b : Booking)
    (center : Option EventCenter) (status : String) (reason : Option String) (now : Int) :
    (applyStatusUpdate actor b center status reason now).1.status = status := by
  unfold applyStatusUpdate
  dsimp only
  split <;> rfl

/-- The mutation of a successful status update appends exactly the route's
history entry on the right of `statusHistory`. -/
lemma applyStatusUpdate_fst_statusHistory (actor : Actor) (b : Booking)
    (center : Option EventCenter) (status : String) (reason : Option String) (now : Int) :
    (applyStatusUpdate actor b center status reason now).1.statusHistory =
      b.statusHistory ++
        [⟨status, actor.id, now, reason.getD ("Status changed to " ++ status)⟩] := by
  unfold applyStatusUpdate
  dsimp only
  split <;> rfl

/-- Elimination for a successful `PUT /api/bookings/:bookingId/status`: every
guard passed (the requested status is a legal enum value, the requester is
customer, provider or admin, and the transition table admits the pair) and
the result is the route's mutation. -/
lemma updateBookingStatus_ok_elim {actor : Actor} {b : Booking}
    {center : Option EventCenter} {status : String} {reason : Option String} {now : Int}
    {r : Booking × Option EventCenter}
    (h : updateBookingStatus actor b center (some status) reason now = .ok r) :
    BOOKING_STATUS.values.contains status = true ∧
    (b.customer = actor.id ∨ b.provider = actor.id ∨ actor.role = USER_ROLES.ADMIN) ∧
    (allowedTransitions b.status).contains status = true ∧
    r = applyStatusUpdate actor b center status reason now := by
  simp only [updateBookingStatus] at h
  split at h
  · exact Except.noConfusion h
  · rename_i h1
    split at h
    · exact Except.noConfusion h
    · rename_i h2
      split at h
      · exact Except.noConfusion h
      · rename_i h3
        split at h
        · exact Except.noConfusion h
        · rename_i h4
          split at h
          · exact Except.noConfusion h
          · rename_i h5
            refine ⟨by simpa using h1, ?_, by simpa using h3, (Except.ok.inj h).symm⟩
            by_cases hc : b.customer = actor.id
            · exact Or.inl hc
            by_cases hp : b.provider = actor.id
            · exact Or.inr (Or.inl hp)
            by_cases ha : actor.role = USER_ROLES.ADMIN
            · exact Or.inr (Or.inr ha)
            exact absurd (by simp [hc, hp, ha]) h2

/-- C1: booking status changes follow the static four-state transition table.
For an authorized requester, the status-update route succeeds only when the
pair (current status, requested status) is pending-to-confirmed,
pending-to-cancelled, confirmed-to-completed or confirmed-to-cancelled — and
then the booking carries the requested status — while any other pair (any
transition out of completed or cancelled included, and any non-enum status)
is rejected with a 400 error, leaving the booking unchanged. -/
theorem booking_status_update_respects_transition_table (actor : Actor) (b : Booking)
    (center : Option EventCenter) (status : String) (reason : Option String) (now : Int)
    (hauth : b.customer = actor.id ∨ b.provider = actor.id ∨ actor.role = USER_ROLES.ADMIN) :
    (∀ r, updateBookingStatus actor b center (some status) reason now = .ok r →
      specAllowedPair b.status status ∧ r.1.status = status) ∧
    (¬ specAllowedPair b.status status →
      ∃ msg, updateBookingStatus actor b center (some status) reason now =
        .error ⟨STATUS_CODES.BAD_REQUEST, msg⟩) := by
  constructor
  · intro r h
    obtain ⟨h1, h2, h3, h4⟩ := updateBookingStatus_ok_elim h
    refine ⟨(allowedTransitions_contains_iff _ _).mp h3, ?_⟩
    rw [h4]
    exact applyStatusUpdate_fst_status actor b center status reason now
  · intro hnp
    have hcont : (allowedTransitions b.status).contains status = false :=
      Bool.eq_false_iff.mpr fun hc =>
        hnp ((allowedTransitions_contains_iff _ _).mp hc)
    have hauthBool :
        ((!(b.customer == actor.id) && !(b.provider == actor.id)) &&
          !(actor.role == USER_ROLES.ADMIN)) = false := by
      rcases hauth with hx | hx | hx <;> simp [hx]
    by_cases hv : BOOKING_STATUS.values.contains status = true
    · refine ⟨"Cannot transition from " ++ b.status ++ " to " ++ status, ?_⟩
      simp only [updateBookingStatus]
      rw [if_neg (by rw [hv]; decide), if_neg (by rw [hauthBool]; decide),
        if_pos (by rw [hcont]; decide)]
    · refine ⟨"Invalid status value", ?_⟩
      have hvf : BOOKING_STATUS.values.contains status = false := Bool.eq_false_iff.mpr hv
      simp only [updateBookingStatus]
      rw [if_pos (by rw [hvf]; decide)]

/-- C1 witness: the provider confirms a pending booking — the pair is in the
table and the booking ends up confirmed. -/
theorem booking_status_update_witness :
    specAllowedPair samplePendingBooking.status BOOKING_STATUS.CONFIRMED ∧
    (applyStatusUpdate ⟨2, "provider"⟩ samplePendingBooking none
      BOOKING_STATUS.CONFIRMED none 5).1.status = BOOKING_STATUS.CONFIRMED :=
  (booking_status_update_respects_transition_table ⟨2, "provider"⟩ samplePendingBooking none
    BOOKING_STATUS.CONFIRMED none 5 (Or.inr (Or.inl rfl))).1 _ rfl

/-- The shared `bookedDates` filter keeps exactly the entries not pointing at
the cancelled booking, and leaves `blockedDates` untouched. -/
lemma removeBookedDatesFor_spec (bid : Nat) (ec : EventCenter) :
    (removeBookedDatesFor bid ec).availability.bookedDates =
      ec.availability.bookedDates.filter (fun d => !(d.booking == some bid)) ∧
    (∀ d, d ∈ (removeBookedDatesFor bid ec).availability.bookedDates ↔
      d ∈ ec.availability.bookedDates ∧ d.booking ≠ some bid) ∧
    (removeBookedDatesFor bid ec).availability.blockedDates =
      ec.availability.blockedDates := by
  refine ⟨rfl, ?_, rfl⟩
  intro d
  simp [removeBookedDatesFor, List.mem_filter]

/-- Cancelling a center booking through the status route maps the center
through the shared `bookedDates` filter (the confirmation push does not fire,
since the requested status is cancelled, not confirmed). -/
lemma applyStatusUpdate_cancelled_center (actor : Actor) (b : Booking) (ec : EventCenter)
    (reason : Option String) (now : Int) (htype : b.bookingType = "center") :
    (applyStatusUpdate actor b (some ec) BOOKING_STATUS.CANCELLED reason now).2 =
      some (removeBookedDatesFor b.id ec) := by
  simp [applyStatusUpdate, htype, BOOKING_STATUS.CANCELLED, BOOKING_STATUS.CONFIRMED]

/-- Elimination for a successful `DELETE /api/bookings/:bookingId`: the guards
passed and the result is the route's cancellation mutation. -/
lemma deleteBooking_ok_elim {actor : Actor} {b : Booking} {center : Option EventCenter}
    {reason : Option String} {now : Int} {r : Booking × Option EventCenter}
    (h : deleteBooking actor b center reason now = .ok r) :
    (b.customer = actor.id ∨ b.provider = actor.id ∨ actor.role = USER_ROLES.ADMIN) ∧
    b.status ≠ BOOKING_STATUS.CANCELLED ∧ b.status ≠ BOOKING_STATUS.COMPLETED ∧
    r = applyDeleteCancellation actor b center reason now := by
  simp only [deleteBooking] at h
  split at h
  · exact Except.noConfusion h
  · rename_i h1
    split at h
    · exact Except.noConfusion h
    · rename_i h2
      split at h
      · exact Except.noConfusion h
      · rename_i h3
        refine ⟨?_, by simpa using h2, by simpa using h3, (Except.ok.inj h).symm⟩
        by_cases hc : b.customer = actor.id
        · exact Or.inl hc
        by_cases hp : b.provider = actor.id
        · exact Or.inr (Or.inl hp)
        by_cases ha : actor.role = USER_ROLES.ADMIN
        · exact Or.inr (Or.inr ha)
        exact absurd (by simp [hc, hp, ha]) h1

/-- The cancellation mutation of the delete route: status, history and, for a
center booking, the pruned center. -/
lemma applyDeleteCancellation_facts (actor : Actor) (b : Booking)
    (center : Option EventCenter) (reason : Option String) (now : Int) :
    (applyDeleteCancellation actor b center reason now).1.status =
      BOOKING_STATUS.CANCELLED ∧
    (applyDeleteCancellation actor b center reason now).1.statusHistory =
      b.statusHistory ++
        [⟨BOOKING_STATUS.CANCELLED, actor.id, now, reason.getD "Booking cancelled"⟩] ∧
    (b.bookingType = "center" →
      (applyDeleteCancellation actor b center reason now).2 =
        center.map (removeBookedDatesFor b.id)) := by
  refine ⟨rfl, rfl, ?_⟩
  intro ht
  simp [applyDeleteCancellation, ht]

/-- C8: cancelling a center booking — through the status-update route or the
delete route — removes from the center's `bookedDates` exactly the entries
whose `booking` field is the cancelled booking's id (as a filter that keeps
every other entry in place) and leaves `blockedDates` unchanged. -/
theorem cancellation_prunes_center_booked_dates (actor : Actor) (b : Booking)
    (ec : EventCenter) (reason : Option String) (now : Int)
    (htype : b.bookingType = "center") :
    (∀ r, updateBookingStatus actor b (some ec) (some BOOKING_STATUS.CANCELLED) reason now =
        .ok r →
      r.2 = some (removeBookedDatesFor b.id ec) ∧
      (removeBookedDatesFor b.id ec).availability.bookedDates =
        ec.availability.bookedDates.filter (fun d => !(d.booking == some b.id)) ∧
      (∀ d, d ∈ (removeBookedDatesFor b.id ec).availability.bookedDates ↔
        d ∈ ec.availability.bookedDates ∧ d.booking ≠ some b.id) ∧
      (removeBookedDatesFor b.id ec).availability.blockedDates =
        ec.availability.blockedDates) ∧
    (∀ r, deleteBooking actor b (some ec) reason now = .ok r →
      r.2 = some (removeBookedDatesFor b.id ec) ∧
      (∀ d, d ∈ (removeBookedDatesFor b.id ec).availability.bookedDates ↔
        d ∈ ec.availability.bookedDates ∧ d.booking ≠ some b.id) ∧
      (removeBookedDatesFor b.id ec).availability.blockedDates =
        ec.availability.blockedDates) := by
  obtain ⟨hfil, hmem, hblk⟩ := removeBookedDatesFor_spec b.id ec
  constructor
  · intro r h
    obtain ⟨-, -, -, hr⟩ := updateBookingStatus_ok_elim h
    refine ⟨?_, hfil, hmem, hblk⟩
    rw [hr]
    exact applyStatusUpdate_cancelled_center actor b ec reason now htype
  · intro r h
    obtain ⟨-, -, -, hr⟩ := deleteBooking_ok_elim h
    refine ⟨?_, hmem, hblk⟩
    rw [hr]
    rw [(applyDeleteCancellation_facts actor b (some ec) reason now).2.2 htype]
    rfl

/-- A center with one range booked by booking 41, one booked by booking 99,
and one owner-blocked range. -/
def sampleBookedCenter : EventCenter :=
  { id := 3
    owner := 2
    isActive := true
    verificationStatus := "verified"
    capacity := ⟨10, 100⟩
    availability :=
      { bookedDates := [⟨0, 86399999, some 41⟩, ⟨100, 200, some 99⟩]
        blockedDates := [⟨500, 600, none⟩] } }

/-- C8 witness: the customer deletes booking 41 — only its own range leaves
`bookedDates`; booking 99's range and the blocked range stay. -/
theorem cancellation_prunes_center_booked_dates_witness :
    (applyDeleteCancellation ⟨1, "host"⟩ samplePendingBooking (some sampleBookedCenter)
        none 7).2 =
      some (removeBookedDatesFor samplePendingBooking.id sampleBookedCenter) ∧
    (removeBookedDatesFor samplePendingBooking.id sampleBookedCenter).availability.bookedDates =
      [⟨100, 200, some 99⟩] ∧
    (removeBookedDatesFor samplePendingBooking.id sampleBookedCenter).availability.blockedDates =
      [⟨500, 600, none⟩] :=
  ⟨((cancellation_prunes_center_booked_dates ⟨1, "host"⟩ samplePendingBooking
      sampleBookedCenter none 7 rfl).2 _ rfl).1, by decide, by decide⟩

/-- Elimination for a successful `POST /api/reviews`: the requester is the
booking's customer, the booking is completed and not yet reviewed, and the
saved booking is the input with `reviewed` set and the review id stored. -/
lemma createReview_ok_elim {requester : Nat} {b : Booking} {overall : Option Int}
    {rid : Nat} {out : Booking × Review}
    (h : createReview requester b overall rid = .ok out) :
    b.customer = requester ∧ b.status = "completed" ∧ b.reviewed = false ∧
    out.1 = { b with reviewed := true, review := some rid } := by
  simp only [createReview] at h
  split at h
  · exact Except.noConfusion h
  · rename_i h1
    split at h
    · exact Except.noConfusion h
    · rename_i h2
      split at h
      · exact Except.noConfusion h
      · rename_i h3
        split at h
        · exact Except.noConfusion h
        · rename_i ov
          split at h
          · exact Except.noConfusion h
          · refine ⟨by simpa using h1, by simpa using h2, by simpa using h3, ?_⟩
            rw [← Except.ok.inj h]

/-- C9: a review can be created only by the booking's customer, only for a
completed booking, and only once. A successful creation marks the booking
reviewed and stores the review id, and any further review request for that
booking is refused with a 409 conflict, so at most one review is ever
attached. -/
theorem review_created_at_most_once (requester : Nat) (b : Booking)
    (overall : Option Int) (rid rid2 : Nat) :
    ∀ out, createReview requester b overall rid = .ok out →
      (b.customer = requester ∧ b.status = "completed" ∧ b.reviewed = false) ∧
      (out.1.reviewed = true ∧ out.1.review = some rid) ∧
      (∀ overall2, createReview requester out.1 overall2 rid2 =
        .error ⟨STATUS_CODES.CONFLICT, "You have already reviewed this booking"⟩) := by
  intro out h
  obtain ⟨h1, h2, h3, h4⟩ := createReview_ok_elim h
  refine ⟨⟨h1, h2, h3⟩, ⟨by rw [h4], by rw [h4]⟩, ?_⟩
  intro overall2
  rw [h4]
  simp [createReview, h1, h2]

/-- A completed, not yet reviewed booking of customer 1. -/
def sampleCompletedBooking : Booking :=
  { samplePendingBooking with status := "completed" }

/-- The same booking after its review was created. -/
def sampleReviewedBooking : Booking :=
  { sampleCompletedBooking with reviewed := true, review := some 11 }

/-- C9 witness: customer 1 reviews the completed booking once; the repeat
request is refused with 409. -/
theorem review_created_at_most_once_witness :
    createReview 1 sampleReviewedBooking (some 4) 12 =
      .error ⟨STATUS_CODES.CONFLICT, "You have already reviewed this booking"⟩ :=
  (review_created_at_most_once 1 sampleCompletedBooking (some 5) 11 12 _ rfl).2.2 (some 4)

/-- C10: every status-setting operation appends exactly one `statusHistory`
entry — recording the new status, the acting user and the timestamp — on the
right, leaving every earlier entry in place; afterwards the last entry's
status equals the booking's current status. Creation starts the history with
the single pending entry; the status route appends the requested status; the
delete route appends the cancelled entry. -/
theorem status_history_appends_one_entry :
    (∀ id bt cid pid ecid d p pm now,
      (mkBookingData id bt cid pid ecid d p pm now).status = BOOKING_STATUS.PENDING ∧
      (mkBookingData id bt cid pid ecid d p pm now).statusHistory =
        [⟨BOOKING_STATUS.PENDING, cid, now, "Booking created"⟩] ∧
      (mkBookingData id bt cid pid ecid d p pm now).statusHistory.getLast? =
        some ⟨(mkBookingData id bt cid pid ecid d p pm now).status, cid, now,
          "Booking created"⟩) ∧
    (∀ actor b center status reason now r,
      updateBookingStatus actor b center (some status) reason now = .ok r →
      r.1.statusHistory = b.statusHistory ++
        [⟨status, actor.id, now, reason.getD ("Status changed to " ++ status)⟩] ∧
      r.1.status = status ∧
      r.1.statusHistory.getLast? =
        some ⟨r.1.status, actor.id, now, reason.getD ("Status changed to " ++ status)⟩) ∧
    (∀ actor b center reason now r,
      deleteBooking actor b center reason now = .ok r →
      r.1.statusHistory = b.statusHistory ++
        [⟨BOOKING_STATUS.CANCELLED, actor.id, now, reason.getD "Booking cancelled"⟩] ∧
      r.1.status = BOOKING_STATUS.CANCELLED ∧
      r.1.statusHistory.getLast? =
        some ⟨r.1.status, actor.id, now, reason.getD "Booking cancelled"⟩) := by
  refine ⟨?_, ?_, ?_⟩
  · intro id bt cid pid ecid d p pm now
    exact ⟨rfl, rfl, rfl⟩
  · intro actor b center status reason now r h
    obtain ⟨-, -, -, hr⟩ := updateBookingStatus_ok_elim h
    subst hr
    refine ⟨applyStatusUpdate_fst_statusHistory actor b center status reason now,
      applyStatusUpdate_fst_status actor b center status reason now, ?_⟩
    rw [applyStatusUpdate_fst_statusHistory actor b center status reason now,
      applyStatusUpdate_fst_status actor b center status reason now]
    simp
  · intro actor b center reason now r h
    obtain ⟨-, -, -, hr⟩ := deleteBooking_ok_elim h
    subst hr
    obtain ⟨hst, hhist, -⟩ := applyDeleteCancellation_facts actor b center reason now
    refine ⟨hhist, hst, ?_⟩
    rw [hhist, hst]
    simp

/-- C10 witness: the customer cancels the pending booking via the delete
route; one cancelled entry is appended and matches the final status. -/
theorem status_history_appends_one_entry_witness :
    (applyDeleteCancellation ⟨1, "host"⟩ samplePendingBooking (some sampleBookedCenter)
        none 7).1.statusHistory =
      samplePendingBooking.statusHistory ++
        [⟨BOOKING_STATUS.CANCELLED, 1, 7, "Booking cancelled"⟩] ∧
    (applyDeleteCancellation ⟨1, "host"⟩ samplePendingBooking (some sampleBookedCenter)
        none 7).1.status = BOOKING_STATUS.CANCELLED ∧
    (applyDeleteCancellation ⟨1, "host"⟩ samplePendingBooking (some sampleBookedCenter)
        none 7).1.statusHistory.getLast? =
      some ⟨(applyDeleteCancellation ⟨1, "host"⟩ samplePendingBooking
        (some sampleBookedCenter) none 7).1.status, 1, 7, "Booking cancelled"⟩ :=
  status_history_appends_one_entry.2.2 ⟨1, "host"⟩ samplePendingBooking
    (some sampleBookedCenter) none 7 _ rfl

/-- The escrow invariant: either the booking is not yet completed and the
platform holds the funds, or it is completed and the provider has them. -/
def escrowInv (s : EscrowState) : Prop :=
  (s.holder = FundsHolder.platform ∧ s.status ≠ BOOKING_STATUS.COMPLETED) ∨
  (s.holder = FundsHolder.provider ∧ s.status = BOOKING_STATUS.COMPLETED)

/-- One escrow step preserves the invariant: funds move only on the
transition into completed, and nothing leaves completed. -/
lemma escrowInv_step (s : EscrowState) (req : String) (h : escrowInv s) :
    escrowInv (escrowStep s req) := by
  unfold escrowStep
  split
  · rename_i hc
    by_cases hreq : req = BOOKING_STATUS.COMPLETED
    · right
      refine ⟨?_, hreq⟩
      simp [hreq]
    · left
      refine ⟨?_, hreq⟩
      have hbeq : (req == BOOKING_STATUS.COMPLETED) = false := by
        simp [hreq]
      simp only [hbeq, if_false]
      rcases h with ⟨hh, -⟩ | ⟨-, hs⟩
      · exact hh
      · exfalso
        rw [hs] at hc
        simp [allowedTransitions, List.elem_iff, BOOKING_STATUS.COMPLETED,
          BOOKING_STATUS.PENDING, BOOKING_STATUS.CONFIRMED] at hc
  · exact h

/-- The invariant holds after any run of requested transitions. -/
lemma escrowRun_inv (reqs : List String) : escrowInv (escrowRun reqs) := by
  have h : ∀ s, escrowInv s → escrowInv (reqs.foldl escrowStep s) := by
    induction reqs with
    | nil => exact fun s hs => hs
    | cons a as ih => exact fun s hs => ih _ (escrowInv_step s a hs)
  exact h escrowInit (Or.inl ⟨rfl, by decide⟩)

/-- C7: for an escrow booking the platform retains the paid funds in every
state before completed, and the funds are released to the provider exactly
when the booking reaches the completed status — across every sequence of
requested status changes under the code's transition table. -/
theorem escrow_released_only_on_completion (reqs : List String) :
    ((escrowRun reqs).status ≠ BOOKING_STATUS.COMPLETED →
      (escrowRun reqs).holder = FundsHolder.platform) ∧
    ((escrowRun reqs).holder = FundsHolder.provider ↔
      (escrowRun reqs).status = BOOKING_STATUS.COMPLETED) := by
  rcases escrowRun_inv reqs with ⟨hh, hs⟩ | ⟨hh, hs⟩
  · refine ⟨fun _ => hh, ?_, ?_⟩
    · intro hp
      rw [hh] at hp
      exact absurd hp (by decide)
    · intro hc
      exact absurd hc hs
  · exact ⟨fun hne => absurd hs hne, fun _ => hs, fun _ => hh⟩

/-- C7 witness: after confirmation alone the platform still holds the funds;
after completion the provider holds them. -/
theorem escrow_released_only_on_completion_witness :
    (escrowRun [BOOKING_STATUS.CONFIRMED]).holder = FundsHolder.platform ∧
    (escrowRun [BOOKING_STATUS.CONFIRMED, BOOKING_STATUS.COMPLETED]).holder =
      FundsHolder.provider :=
  ⟨(escrow_released_only_on_completion [BOOKING_STATUS.CONFIRMED]).1 (by decide),
   (escrow_released_only_on_completion
      [BOOKING_STATUS.CONFIRMED, BOOKING_STATUS.COMPLETED]).2.mpr (by decide)⟩

end Ocassia
